import Mathlib

/-!
Shallow embedding of `src/seq2tree/encoder_decoder.py` (classes
`EncoderDecoderModel` and `Seq2TreeModel`): the batch formatter
(`format_example`, `get_batch`, `get_bucket`), loss selection and
normalization (`use_sampled_softmax`, `softmax_loss`, `sequence_loss`),
the variable get-or-create discipline (`source_embeddings`,
`target_embeddings`, `output_projection`) and the shape validation
performed by `Seq2TreeModel.step`.

Token ids are `Nat`; per-step loss weights (Python `np.float32` with values
`0.0` / `1.0`) and cross-entropy values are `ℚ`.  Python computations that
can raise `IndexError` are embedded as `Option`-returning functions in which
`none` models the raised exception.
-/

namespace Seq2Tree

/-- Padding token id.  Modelled from the spec: `data_utils.PAD_ID` is
supplied by the vocabulary collaborator (`data_utils` is not part of the
sources here); the spec treats it as an opaque integer constant and its
concrete scenarios fix `PAD_ID = 0`. -/
def PAD_ID : Nat := 0

/-- The batch-major re-indexing loop shared verbatim by `format_example`
(lines 117-121 and 133-137), `get_batch` (lines 195-205) and `get_bucket`
(lines 256-266): entry `length_idx` of the result is the vector of
`rows[batch_idx][length_idx]` for `batch_idx < nbatch`.  Where the source
uses this loop with `nbatch = rows.length`, and every row has length at
least `size` (a padded row has length `max (original length) size`), both
indexes are always in range, so total `getD` indexing is faithful. -/
def batch_major (padId size nbatch : Nat) (rows : List (List Nat)) : List (List Nat) :=
  (List.range size).map fun length_idx =>
    (List.range nbatch).map fun batch_idx =>
      (rows.getD batch_idx []).getD length_idx padId

/-- The target-weight loop shared verbatim by `format_example` (lines
143-152), `get_batch` (lines 207-216) and `get_bucket` (lines 268-277).
The source builds `np.ones(nbatch)` and overwrites an entry with `0.0` when
`length_idx == decoder_size - 1` (in that case the Python `or`
short-circuits without reading a target) or when the padded decoder row
holds `PAD_ID` at `length_idx + 1`; pointwise this is the conditional
below. -/
def batch_weights (padId size nbatch : Nat) (rows : List (List Nat)) : List (List ℚ) :=
  (List.range size).map fun length_idx =>
    (List.range nbatch).map fun batch_idx =>
      if length_idx = size - 1 then (0 : ℚ)
      else if (rows.getD batch_idx []).getD (length_idx + 1) padId = padId then 0
      else 1

/-- `EncoderDecoderModel.format_example` (lines 83-158) on the
`use_copy = False` path: formats one example (batch size 1).
`encoder_size` / `decoder_size` are the selected bucket's bounds when
`bucket_id >= 0` and the configured maxima otherwise (lines 88-91); the
caller passes whichever pair applies.  The Python padding
`[PAD_ID] * (size - len(input))` produces the empty list for over-long
inputs exactly as `Nat` subtraction does. -/
def format_example (padId encoder_size decoder_size : Nat)
    (encoder_input decoder_input : List Nat) :
    List (List Nat) × List (List Nat) × List (List ℚ) :=
  let encoder_inputs :=
    [(encoder_input ++ List.replicate (encoder_size - encoder_input.length) padId).reverse]
  let decoder_inputs :=
    [decoder_input ++ List.replicate (decoder_size - decoder_input.length) padId]
  (batch_major padId encoder_size 1 encoder_inputs,
   batch_major padId decoder_size 1 decoder_inputs,
   batch_weights padId decoder_size 1 decoder_inputs)

/-- `EncoderDecoderModel.get_batch` (lines 161-217).  The source draws
`batch_size` examples with `random.choice(data[bucket_id])`, unpacking the
chosen 4-tuple as `_, _, encoder_input, decoder_input`; randomness is
embedded by the oracle `pick`, where `pick i` is the
`(encoder_input, decoder_input)` pair of the `i`-th draw. -/
def get_batch (padId encoder_size decoder_size batch_size : Nat)
    (pick : Nat → List Nat × List Nat) :
    List (List Nat) × List (List Nat) × List (List ℚ) :=
  let encoder_inputs := (List.range batch_size).map fun i =>
    ((pick i).1 ++ List.replicate (encoder_size - (pick i).1.length) padId).reverse
  let decoder_inputs := (List.range batch_size).map fun i =>
    (pick i).2 ++ List.replicate (decoder_size - (pick i).2.length) padId
  (batch_major padId encoder_size batch_size encoder_inputs,
   batch_major padId decoder_size batch_size decoder_inputs,
   batch_weights padId decoder_size batch_size decoder_inputs)

/-- Checked variant of the batch-major re-indexing loop used to embed
`get_bucket`, whose row index `batch_idx` ranges over `batch_size` but
whose `rows` list holds one row per stored example: `rows[batch_idx]`
raises `IndexError` (here `none`) when `batch_idx` is out of range.  The
column index is always in range as in `batch_major`. -/
def batch_major_checked (padId size nbatch : Nat) (rows : List (List Nat)) :
    Option (List (List Nat)) :=
  (List.range size).mapM fun length_idx =>
    (List.range nbatch).mapM fun batch_idx =>
      match rows[batch_idx]? with
      | some row => some (row.getD length_idx padId)
      | none => none

/-- Checked variant of the target-weight loop used to embed `get_bucket`.
At `length_idx = size - 1` the Python `or` short-circuits without reading
`decoder_inputs[batch_idx]`, so no `IndexError` can occur at the final
step; at earlier steps the target read `decoder_inputs[batch_idx][length_idx + 1]`
raises (here `none`) when `batch_idx` is out of range. -/
def batch_weights_checked (padId size nbatch : Nat) (rows : List (List Nat)) :
    Option (List (List ℚ)) :=
  (List.range size).mapM fun length_idx =>
    (List.range nbatch).mapM fun batch_idx =>
      if length_idx = size - 1 then some (0 : ℚ)
      else
        match rows[batch_idx]? with
        | some row => some (if row.getD (length_idx + 1) padId = padId then (0 : ℚ) else 1)
        | none => none

/-- `EncoderDecoderModel.get_bucket` (lines 220-278).  The source pads and
reverses every example of `data[bucket_id]` (lines 241-251) but then
re-indexes with `batch_idx in xrange(self.batch_size)` (lines 257-277);
the embedding keeps that row index range, so the result is `none` exactly
when the Python code raises `IndexError` (`batch_size` exceeding the
number of stored examples, with at least one in-range `length_idx` that
performs a read). -/
def get_bucket (padId encoder_size decoder_size batch_size : Nat)
    (bucket_data : List (List Nat × List Nat)) :
    Option (List (List Nat) × List (List Nat) × List (List ℚ)) :=
  let encoder_inputs := bucket_data.map fun ex =>
    (ex.1 ++ List.replicate (encoder_size - ex.1.length) padId).reverse
  let decoder_inputs := bucket_data.map fun ex =>
    ex.2 ++ List.replicate (decoder_size - ex.2.length) padId
  match batch_major_checked padId encoder_size batch_size encoder_inputs with
  | none => none
  | some batch_encoder_inputs =>
    match batch_major_checked padId decoder_size batch_size decoder_inputs with
    | none => none
    | some batch_decoder_inputs =>
      match batch_weights_checked padId decoder_size batch_size decoder_inputs with
      | none => none
      | some batch_target_weights =>
        some (batch_encoder_inputs, batch_decoder_inputs, batch_target_weights)

/-- `EncoderDecoderModel.format_example` on the `use_copy = True` path
(lines 95-156).  The source initializes `original_decoder_inputs = []`
(line 97) and never appends to it, yet both batch-major loops read
`original_decoder_inputs[batch_idx]` (lines 123-125 and 139-141), and the
encoder loop appends those reads to `batch_original_decoder_inputs`
rather than ever filling `batch_original_encoder_inputs` (initialized line
115, returned line 156).  The embedding reproduces the reads on the empty
list, so the result is `none` exactly when Python raises `IndexError`. -/
def format_example_copy (padId encoder_size decoder_size : Nat)
    (encoder_input decoder_input original_encoder_input original_decoder_input
     copy_mask : List Nat) :
    Option (List (List Nat) × List (List Nat) × List (List ℚ) ×
            List (List Nat) × List (List Nat) × List (List Nat)) :=
  let encoder_pad := List.replicate (encoder_size - encoder_input.length) padId
  let encoder_inputs := [(encoder_input ++ encoder_pad).reverse]
  let copy_mask_pad := List.replicate (encoder_size - encoder_input.length) 0
  let _original_encoder_inputs := [(original_encoder_input ++ encoder_pad).reverse]
  let copy_masks := [(copy_mask ++ copy_mask_pad).reverse]
  let decoder_inputs :=
    [decoder_input ++ List.replicate (decoder_size - decoder_input.length) padId]
  let original_decoder_inputs : List (List Nat) := []
  let batch_original_encoder_inputs : List (List Nat) := []
  match
    (List.range encoder_size).mapM (fun length_idx =>
      match
        (List.range 1).mapM (fun batch_idx =>
          match original_decoder_inputs[batch_idx]? with
          | some row => some (row.getD length_idx padId)
          | none => none)
      with
      | some bod =>
        some ((List.range 1).map (fun batch_idx =>
                (encoder_inputs.getD batch_idx []).getD length_idx padId),
              bod,
              (List.range 1).map (fun batch_idx =>
                if (copy_masks.getD batch_idx []).getD length_idx 0 = 1 then (1 : Nat) else 0))
      | none => none)
  with
  | none => none
  | some encLoop =>
    match
      (List.range decoder_size).mapM (fun length_idx =>
        match
          (List.range 1).mapM (fun batch_idx =>
            match original_decoder_inputs[batch_idx]? with
            | some row => some (row.getD length_idx padId)
            | none => none)
        with
        | some bod =>
          some ((List.range 1).map (fun batch_idx =>
                  (decoder_inputs.getD batch_idx []).getD length_idx padId),
                bod,
                (List.range 1).map (fun batch_idx =>
                  if length_idx = decoder_size - 1 then (0 : ℚ)
                  else if (decoder_inputs.getD batch_idx []).getD (length_idx + 1) padId = padId
                  then 0 else 1))
        | none => none)
    with
    | none => none
    | some decLoop =>
      some (encLoop.map (fun p => p.1),
            decLoop.map (fun p => p.1),
            decLoop.map (fun p => p.2.2),
            batch_original_encoder_inputs,
            encLoop.map (fun p => p.2.1) ++ decLoop.map (fun p => p.2.1),
            encLoop.map (fun p => p.2.2))

/-- `EncoderDecoderModel.use_sampled_softmax` (lines 281-283):
`self.num_samples > 0 and self.num_samples < self.target_vocab_size`. -/
def use_sampled_softmax (num_samples target_vocab_size : Int) : Bool :=
  decide (num_samples > 0) && decide (num_samples < target_vocab_size)

/-- The loss function chosen by `Seq2TreeModel.softmax_loss`: either the
closure around `tf.nn.sampled_softmax_loss` (carrying the configuration it
closes over) or `tf.nn.softmax_cross_entropy_with_logits`. -/
inductive LossFunction where
  | sampled_loss (num_samples target_vocab_size : Int) : LossFunction
  | softmax_cross_entropy_with_logits : LossFunction
deriving DecidableEq

/-- `Seq2TreeModel.softmax_loss` (lines 523-536): picks the sampled-softmax
closure when `use_sampled_softmax` holds and the full softmax
cross-entropy otherwise. -/
def softmax_loss (num_samples target_vocab_size : Int) : LossFunction :=
  if use_sampled_softmax num_samples target_vocab_size then
    LossFunction.sampled_loss num_samples target_vocab_size
  else
    LossFunction.softmax_cross_entropy_with_logits

/-- `tf.add_n` as used in `sequence_loss` (lines 516-517): the sum of a
list of per-step scalar values. -/
def add_n (xs : List ℚ) : ℚ := xs.sum

/-- The additive epsilon of `sequence_loss` (line 518): `1e-12`. -/
def loss_epsilon : ℚ := 1 / 1000000000000

/-- `Seq2TreeModel.sequence_loss` (lines 507-520): truncate targets and
weights to the number of logits (`self.targets[:len(logits)]`,
`self.target_weights[:len(logits)]`), apply the loss function to each
(logit, target) pair, multiply by the step's weight and sum
(`tf.add_n(log_perp_list)`), then divide by the weight sum plus `1e-12`.
Per-step tensors are embedded at one scalar position of the batch. -/
def sequence_loss {α : Type} (loss_function : α → α → ℚ)
    (logits targets_all : List α) (weights_all : List ℚ) : ℚ :=
  let targets := targets_all.take logits.length
  let weights := weights_all.take logits.length
  let log_perp_list :=
    (logits.zip (targets.zip weights)).map fun p => loss_function p.1 p.2.1 * p.2.2
  let log_perps := add_n log_perp_list
  let total_size := add_n weights + loss_epsilon
  log_perps / total_size

/-- Errors raised by the shape checks of `Seq2TreeModel.step` (lines
556-571): `assertionError` is a failed `assert`; the three mismatch
constructors are the `ValueError`s whose messages name the actual and the
expected length (`"... must be equal to the one in bucket, %d != %d"`);
`indexError` is a failed bucket lookup. -/
inductive StepError where
  | assertionError : StepError
  | encoderLengthMismatch (actual expected : Nat) : StepError
  | decoderLengthMismatch (actual expected : Nat) : StepError
  | weightsLengthMismatch (actual expected : Nat) : StepError
  | indexError : StepError
deriving DecidableEq

/-- Python list indexing: nonnegative indexes from the front, negative
indexes from the back, `IndexError` (`none`) out of range. -/
def pyGet {α : Type} (l : List α) (i : Int) : Option α :=
  if 0 ≤ i then l[i.toNat]?
  else if (-i).toNat ≤ l.length then l[l.length - (-i).toNat]? else none

/-- The shape-validation prefix of `Seq2TreeModel.step` (lines 556-571).
With `bucket_id == -1` the lengths of the encoder- and decoder-input lists
are asserted to equal the configured maxima (the weights list is not
examined); otherwise the bucket's bounds are looked up and the encoder,
decoder and weights lists are each checked against them, raising a
`ValueError` naming actual and expected length.  On success Python falls
through to the feed construction with the selected
`(encoder_size, decoder_size)`, returned here. -/
def step_validate (max_source_length max_target_length : Nat)
    (buckets : List (Nat × Nat)) (bucket_id : Int)
    (encoder_inputs decoder_inputs : List (List Nat))
    (target_weights : List (List ℚ)) : Except StepError (Nat × Nat) :=
  if bucket_id = -1 then
    let encoder_size := encoder_inputs.length
    let decoder_size := decoder_inputs.length
    if encoder_size = max_source_length then
      if decoder_size = max_target_length then Except.ok (encoder_size, decoder_size)
      else Except.error StepError.assertionError
    else Except.error StepError.assertionError
  else
    match pyGet buckets bucket_id with
    | none => Except.error StepError.indexError
    | some (encoder_size, decoder_size) =>
      if encoder_inputs.length ≠ encoder_size then
        Except.error (StepError.encoderLengthMismatch encoder_inputs.length encoder_size)
      else if decoder_inputs.length ≠ decoder_size then
        Except.error (StepError.decoderLengthMismatch decoder_inputs.length decoder_size)
      else if target_weights.length ≠ decoder_size then
        Except.error (StepError.weightsLengthMismatch target_weights.length decoder_size)
      else Except.ok (encoder_size, decoder_size)

/-- A TensorFlow initializer object, parametric in the scalar type of its
arguments: `tf.random_normal_initializer(mean, stddev)` or
`tf.random_uniform_initializer(minval, maxval)`. -/
inductive Initializer (α : Type) where
  | random_normal_initializer (mean stddev : α) : Initializer α
  | random_uniform_initializer (minval maxval : α) : Initializer α

/-- Static description of one embedding table: the variable-scope name it
is created under, the shape passed to `tf.get_variable`, and the
initializer. -/
structure EmbeddingTableSpec (α : Type) where
  scope : String
  shape : Nat × Nat
  init : Initializer α

/-- `EncoderDecoderModel.source_embeddings` (lines 57-67), statically:
under scope `"source_embeddings"` a variable of shape
`[source_vocab_size, dim]` is created with
`tf.random_normal_initializer(-sqrt3, sqrt3)` where
`sqrt3 = math.sqrt(3)`; the scalar `sqrt3` is abstracted so the
definition stays executable. -/
def source_embeddings_spec {α : Type} [Neg α] (source_vocab_size dim : Nat)
    (sqrt3 : α) : EmbeddingTableSpec α :=
  { scope := "source_embeddings"
    shape := (source_vocab_size, dim)
    init := Initializer.random_normal_initializer (-sqrt3) sqrt3 }

/-- `EncoderDecoderModel.target_embeddings` (lines 70-80), statically:
scope `"target_embeddings"`, shape `[target_vocab_size, dim]`, same
initializer expression as the source table. -/
def target_embeddings_spec {α : Type} [Neg α] (target_vocab_size dim : Nat)
    (sqrt3 : α) : EmbeddingTableSpec α :=
  { scope := "target_embeddings"
    shape := (target_vocab_size, dim)
    init := Initializer.random_normal_initializer (-sqrt3) sqrt3 }

/-- The TensorFlow graph's variable store: qualified variable names mapped
to the identity of the underlying storage, plus a counter supplying fresh
identities. -/
structure VarStore where
  vars : List (String × Nat)
  nextId : Nat
deriving DecidableEq

/-- `tf.get_variable` under a scope: in create mode (`reuse = false`) a
variable whose qualified name already exists is an error
(`ValueError`), otherwise fresh storage is allocated and recorded; in
reuse mode (`reuse = true`) the existing storage is returned unchanged and
a missing name is an error. -/
def getVariable (scope name : String) (reuse : Bool) (s : VarStore) :
    Except String (Nat × VarStore) :=
  let qname := scope ++ "/" ++ name
  match s.vars.lookup qname with
  | some v =>
    if reuse then Except.ok (v, s)
    else Except.error "Variable already exists, disallowed."
  | none =>
    if reuse then Except.error "Variable does not exist."
    else Except.ok (s.nextId, ⟨(qname, s.nextId) :: s.vars, s.nextId + 1⟩)

/-- The mutable state of one model instance relevant to variable sharing:
the graph's variable store and the three creation flags set in
`EncoderDecoderModel.__init__` (lines 52-54). -/
structure ModelState where
  store : VarStore
  source_embedding_vars : Bool
  target_embedding_vars : Bool
  output_projection_vars : Bool
deriving DecidableEq

/-- `EncoderDecoderModel.source_embeddings` (lines 57-67), dynamically:
inside scope `"source_embeddings"`, switch the scope to reuse mode when
`self.source_embedding_vars` is already set, call `tf.get_variable`, then
set the flag. -/
def source_embeddings (m : ModelState) : Except String (Nat × ModelState) :=
  match getVariable "source_embeddings" "embedding" m.source_embedding_vars m.store with
  | Except.ok (v, st) =>
    Except.ok (v, { m with store := st, source_embedding_vars := true })
  | Except.error e => Except.error e

/-- `EncoderDecoderModel.target_embeddings` (lines 70-80), dynamically:
same discipline as `source_embeddings` under scope
`"target_embeddings"` with flag `self.target_embedding_vars`. -/
def target_embeddings (m : ModelState) : Except String (Nat × ModelState) :=
  match getVariable "target_embeddings" "embedding" m.target_embedding_vars m.store with
  | Except.ok (v, st) =>
    Except.ok (v, { m with store := st, target_embedding_vars := true })
  | Except.error e => Except.error e

/-- `Seq2TreeModel.output_projection` (lines 495-504): under scope
`"output_projection"`, try to create `proj_w` and `proj_b`; on a
`ValueError` switch the scope to reuse mode and fetch both.  The partial
store produced before a failing create is kept, as the TensorFlow graph
keeps variables created before an exception. -/
def output_projection (m : ModelState) : Except String ((Nat × Nat) × ModelState) :=
  match getVariable "output_projection" "proj_w" false m.store with
  | Except.ok (w, st1) =>
    match getVariable "output_projection" "proj_b" false st1 with
    | Except.ok (b, st2) => Except.ok ((w, b), { m with store := st2 })
    | Except.error _ =>
      match getVariable "output_projection" "proj_w" true st1 with
      | Except.ok (w2, st2) =>
        match getVariable "output_projection" "proj_b" true st2 with
        | Except.ok (b2, st3) => Except.ok ((w2, b2), { m with store := st3 })
        | Except.error e => Except.error e
      | Except.error e => Except.error e
  | Except.error _ =>
    match getVariable "output_projection" "proj_w" true m.store with
    | Except.ok (w2, st2) =>
      match getVariable "output_projection" "proj_b" true st2 with
      | Except.ok (b2, st3) => Except.ok ((w2, b2), { m with store := st3 })
      | Except.error e => Except.error e
    | Except.error e => Except.error e

/-- Result of the `(n+1)`-st of a run of successive calls of a stateful
getter starting from state `m` (so `nth_call f 0 m` is the first call). -/
def nth_call {α : Type} (f : ModelState → Except String (α × ModelState)) :
    Nat → ModelState → Except String (α × ModelState)
  | 0, m => f m
  | n + 1, m =>
    match f m with
    | Except.ok (_, m1) => nth_call f n m1
    | Except.error e => Except.error e

/-- Entry `(t, b)` of a batch-major list of per-step vectors, with default
`d` out of range. -/
def entry {α : Type} (m : List (List α)) (t b : Nat) (d : α) : α :=
  (m.getD t []).getD b d

/-! Helper lemmas about list indexing and `Option`-monad `mapM`. -/

lemma getD_range_map {α : Type} (f : Nat → α) (n i : Nat) (d : α) (h : i < n) :
    ((List.range n).map f).getD i d = f i := by
  rw [List.getD_eq_getElem?_getD, List.getElem?_map, List.getElem?_range h]
  rfl

lemma mapM_option_some {α β : Type} (f : α → Option β) :
    ∀ (xs : List α) (l : List β), xs.mapM f = some l →
      l.length = xs.length ∧ ∀ (i : Nat) (a : α), xs[i]? = some a → l[i]? = f a := by
  intro xs
  induction xs with
  | nil =>
    intro l h
    simp only [List.mapM_nil, Option.pure_def, Option.some.injEq] at h
    subst h
    exact ⟨rfl, by intro i a ha; simp at ha⟩
  | cons x xs ih =>
    intro l h
    rw [List.mapM_cons] at h
    simp only [Option.pure_def, Option.bind_eq_bind, Option.bind_eq_some,
      Option.some.injEq] at h
    obtain ⟨b, hb, bs, hbs, hl⟩ := h
    obtain ⟨hlen, hidx⟩ := ih bs hbs
    subst hl
    refine ⟨by simp [hlen], ?_⟩
    intro i a ha
    cases i with
    | zero => simp at ha ⊢; rw [← ha]; exact hb.symm
    | succ j =>
      simp only [List.getElem?_cons_succ] at ha ⊢
      exact hidx j a ha

lemma range_mapM_getD {β : Type} (g : Nat → Option β) (n : Nat) (l : List β)
    (h : (List.range n).mapM g = some l) (i : Nat) (hi : i < n) (d : β) :
    g i = some (l.getD i d) := by
  obtain ⟨hlen, hidx⟩ := mapM_option_some g (List.range n) l h
  have hr : (List.range n)[i]? = some i := List.getElem?_range hi
  have hgi : l[i]? = g i := hidx i i hr
  have hil : i < l.length := by
    rw [hlen, List.length_range]; exact hi
  rw [List.getD_eq_getElem?_getD]
  rw [List.getElem?_eq_getElem hil] at hgi ⊢
  rw [← hgi]
  rfl

lemma format_example_def (padId es ds : Nat) (e d : List Nat) :
    format_example padId es ds e d =
      (batch_major padId es 1 [(e ++ List.replicate (es - e.length) padId).reverse],
       batch_major padId ds 1 [d ++ List.replicate (ds - d.length) padId],
       batch_weights padId ds 1 [d ++ List.replicate (ds - d.length) padId]) := rfl

lemma get_batch_def (padId es ds bs : Nat) (pick : Nat → List Nat × List Nat) :
    get_batch padId es ds bs pick =
      (batch_major padId es bs ((List.range bs).map fun i =>
         ((pick i).1 ++ List.replicate (es - (pick i).1.length) padId).reverse),
       batch_major padId ds bs ((List.range bs).map fun i =>
         (pick i).2 ++ List.replicate (ds - (pick i).2.length) padId),
       batch_weights padId ds bs ((List.range bs).map fun i =>
         (pick i).2 ++ List.replicate (ds - (pick i).2.length) padId)) := rfl

lemma batch_major_entry (padId size nbatch : Nat) (rows : List (List Nat)) (t b d : Nat)
    (ht : t < size) (hb : b < nbatch) :
    entry (batch_major padId size nbatch rows) t b d = (rows.getD b []).getD t padId := by
  simp only [entry, batch_major]
  rw [getD_range_map _ _ _ _ ht, getD_range_map _ _ _ _ hb]

lemma batch_weights_entry (padId size nbatch : Nat) (rows : List (List Nat)) (t b : Nat)
    (ht : t < size) (hb : b < nbatch) :
    entry (batch_weights padId size nbatch rows) t b 0 =
      if t = size - 1 then (0 : ℚ)
      else if (rows.getD b []).getD (t + 1) padId = padId then 0 else 1 := by
  simp only [entry, batch_weights]
  rw [getD_range_map _ _ _ _ ht, getD_range_map _ _ _ _ hb]

lemma weights_rule_core (padId size nbatch : Nat) (rows : List (List Nat)) (t b : Nat)
    (ht : t < size) (hb : b < nbatch) :
    entry (batch_weights padId size nbatch rows) t b 0 =
      if t = size - 1 ∨ entry (batch_major padId size nbatch rows) (t + 1) b padId = padId
      then (0 : ℚ) else 1 := by
  rw [batch_weights_entry padId size nbatch rows t b ht hb]
  by_cases hlast : t = size - 1
  · simp [hlast]
  · have ht1 : t + 1 < size := by omega
    rw [batch_major_entry padId size nbatch rows (t + 1) b padId ht1 hb]
    by_cases hpad : (rows.getD b []).getD (t + 1) padId = padId
    · simp [hlast, hpad]
    · simp [hlast, hpad]

lemma zip_map_eq_zipWith {α : Type} (f : α → α → ℚ) :
    ∀ (l t : List α) (w : List ℚ),
      ((l.zip (t.zip w)).map fun p => f p.1 p.2.1 * p.2.2) =
        List.zipWith (fun ce wt => ce * wt) (List.zipWith f l t) w := by
  intro l
  induction l with
  | nil => intro t w; simp
  | cons x xs ih =>
    intro t w
    cases t with
    | nil => simp
    | cons y ys =>
      cases w with
      | nil => simp
      | cons z zs => simp [ih]

lemma batch_major_single (padId size : Nat) (row : List Nat) (h : row.length = size) :
    batch_major padId size 1 [row] = row.map fun x => [x] := by
  subst h
  apply List.ext_getElem
  · simp [batch_major]
  · intro i h1 h2
    simp only [batch_major, List.getElem_map, List.getElem_range]
    have hr1 : List.range 1 = [0] := rfl
    have hi : i < row.length := by
      simpa [batch_major] using h1
    simp [hr1, List.getD_eq_getElem?_getD, List.getElem?_eq_getElem hi]

lemma nth_call_of_fixpoint {α : Type} (f : ModelState → Except String (α × ModelState))
    (v : α) (m1 : ModelState) (h2 : f m1 = Except.ok (v, m1)) :
    ∀ n, nth_call f n m1 = Except.ok (v, m1) := by
  intro n
  induction n with
  | zero => exact h2
  | succ k ih =>
    rw [nth_call, h2]
    exact ih

lemma nth_call_stable {α : Type} (f : ModelState → Except String (α × ModelState))
    (v : α) (m m1 : ModelState)
    (h1 : f m = Except.ok (v, m1)) (h2 : f m1 = Except.ok (v, m1)) :
    ∀ n, nth_call f n m = Except.ok (v, m1) := by
  intro n
  cases n with
  | zero => exact h1
  | succ k =>
    rw [nth_call, h1]
    exact nth_call_of_fixpoint f v m1 h2 k

end Seq2Tree

namespace Seq2Tree

/-! Claim theorems. -/

/-- C2: for a source id-sequence of length at most `encoder_size`, the
formatter right-pads it with the padding id to length exactly
`encoder_size` and then reverses it: the padded sequence has length
`encoder_size`, `format_example`'s encoder batch (batch size 1) is
exactly the reversal of (input ++ padding) arranged as per-step singleton
vectors, and in `get_batch` the column of batch position `b` holds the
reversal of ((pick b's encoder input) ++ padding). -/
theorem encoder_pad_then_reverse (padId encoder_size decoder_size batch_size : Nat)
    (encoder_input decoder_input : List Nat) (pick : Nat → List Nat × List Nat)
    (t b : Nat)
    (hlen : encoder_input.length ≤ encoder_size)
    (ht : t < encoder_size) (hb : b < batch_size) :
    (encoder_input ++ List.replicate (encoder_size - encoder_input.length) padId).length
        = encoder_size ∧
    (format_example padId encoder_size decoder_size encoder_input decoder_input).1 =
      ((encoder_input ++
          List.replicate (encoder_size - encoder_input.length) padId).reverse).map
        (fun x => [x]) ∧
    entry (get_batch padId encoder_size decoder_size batch_size pick).1 t b padId =
      (((pick b).1 ++
          List.replicate (encoder_size - (pick b).1.length) padId).reverse).getD t padId := by
  have hplen :
      (encoder_input ++ List.replicate (encoder_size - encoder_input.length) padId).length
        = encoder_size := by
    rw [List.length_append, List.length_replicate]
    omega
  refine ⟨hplen, ?_, ?_⟩
  · rw [format_example_def]
    exact batch_major_single padId encoder_size _ (by rw [List.length_reverse]; exact hplen)
  · rw [get_batch_def]
    rw [batch_major_entry _ _ _ _ t b padId ht hb]
    rw [getD_range_map _ _ _ _ hb]

/-- C2 witness: the spec's concrete scenario, bucket `(4, 6)`,
`PAD_ID = 0`, encoder input `[3, 5, 2]`: the padded sequence `[3, 5, 2, 0]`
has length 4 and the formatted encoder batch is its reversal
`[0, 2, 5, 3]` (as singleton step vectors), also visible through
`get_batch` at batch position 0. -/
theorem encoder_pad_then_reverse_witness :
    ([3, 5, 2] ++ List.replicate (4 - [3, 5, 2].length) PAD_ID).length = 4 ∧
    (format_example PAD_ID 4 6 [3, 5, 2] [1, 7, 2]).1 =
      (([3, 5, 2] ++ List.replicate (4 - [3, 5, 2].length) PAD_ID).reverse).map
        (fun x => [x]) ∧
    entry (get_batch PAD_ID 4 6 1 (fun _ => ([3, 5, 2], [1, 7, 2]))).1 0 0 PAD_ID =
      (((fun _ => (([3, 5, 2] : List Nat), ([1, 7, 2] : List Nat))) 0).1 ++
          List.replicate (4 - ((fun _ => (([3, 5, 2] : List Nat), ([1, 7, 2] : List Nat))) 0).1.length) PAD_ID).reverse.getD 0 PAD_ID ∧
    (format_example PAD_ID 4 6 [3, 5, 2] [1, 7, 2]).1 = [[0], [2], [5], [3]] := by
  have h := encoder_pad_then_reverse PAD_ID 4 6 1 [3, 5, 2] [1, 7, 2]
    (fun _ => ([3, 5, 2], [1, 7, 2])) 0 0 (by decide) (by decide) (by decide)
  exact ⟨h.1, h.2.1, h.2.2, by decide⟩

/-- C1: for every batch produced by any of the three formatter operations
over decoder bound `decoder_size`, the weight at step `t` (batch position
`b`) is `0` if `t` is the final step or the batch's decoder input at step
`t + 1` is the padding id, and `1` otherwise.  For `get_bucket` the
property is stated of any successfully returned batch. -/
theorem formatter_weight_rule (padId encoder_size decoder_size batch_size : Nat)
    (encoder_input decoder_input : List Nat) (pick : Nat → List Nat × List Nat)
    (bucket_data : List (List Nat × List Nat))
    (benc bdec : List (List Nat)) (bw : List (List ℚ)) (t b : Nat)
    (ht : t < decoder_size) (hb : b < batch_size)
    (hbucket : get_bucket padId encoder_size decoder_size batch_size bucket_data =
      some (benc, bdec, bw)) :
    (entry (format_example padId encoder_size decoder_size
        encoder_input decoder_input).2.2 t 0 0 =
      if t = decoder_size - 1 ∨
          entry (format_example padId encoder_size decoder_size
            encoder_input decoder_input).2.1 (t + 1) 0 padId = padId
      then 0 else 1) ∧
    (entry (get_batch padId encoder_size decoder_size batch_size pick).2.2 t b 0 =
      if t = decoder_size - 1 ∨
          entry (get_batch padId encoder_size decoder_size batch_size pick).2.1
            (t + 1) b padId = padId
      then 0 else 1) ∧
    (entry bw t b 0 =
      if t = decoder_size - 1 ∨ entry bdec (t + 1) b padId = padId
      then 0 else 1) := by
  refine ⟨?_, ?_, ?_⟩
  · rw [format_example_def]
    exact weights_rule_core padId decoder_size 1 _ t 0 ht Nat.one_pos
  · rw [get_batch_def]
    exact weights_rule_core padId decoder_size batch_size _ t b ht hb
  · -- unpack the successful get_bucket call
    simp only [get_bucket] at hbucket
    split at hbucket
    · exact absurd hbucket (by simp)
    · rename_i benc2 hE
      split at hbucket
      · exact absurd hbucket (by simp)
      · rename_i bdec2 hD
        split at hbucket
        · exact absurd hbucket (by simp)
        · rename_i bw2 hW
          simp only [Option.some.injEq, Prod.mk.injEq] at hbucket
          obtain ⟨-, hd, hw⟩ := hbucket
          rw [hd] at hD
          rw [hw] at hW
          unfold batch_weights_checked at hW
          unfold batch_major_checked at hD
          have hrowW :
              (List.range batch_size).mapM (fun batch_idx =>
                if t = decoder_size - 1 then some (0 : ℚ)
                else
                  match (bucket_data.map fun ex =>
                      ex.2 ++ List.replicate (decoder_size - ex.2.length) padId)[batch_idx]? with
                  | some row =>
                    some (if row.getD (t + 1) padId = padId then (0 : ℚ) else 1)
                  | none => none) = some (bw.getD t []) :=
            range_mapM_getD _ decoder_size bw hW t ht []
          have hcellW :
              (if t = decoder_size - 1 then some (0 : ℚ)
               else
                 match (bucket_data.map fun ex =>
                     ex.2 ++ List.replicate (decoder_size - ex.2.length) padId)[b]? with
                 | some row =>
                   some (if row.getD (t + 1) padId = padId then (0 : ℚ) else 1)
                 | none => none) = some (entry bw t b 0) :=
            range_mapM_getD _ batch_size (bw.getD t []) hrowW b hb 0
          by_cases hlast : t = decoder_size - 1
          · rw [if_pos hlast] at hcellW
            rw [if_pos (Or.inl hlast)]
            exact (Option.some.injEq _ _ ▸ hcellW).symm
          · rw [if_neg hlast] at hcellW
            have ht1 : t + 1 < decoder_size := by omega
            cases hrow : (bucket_data.map fun ex =>
                ex.2 ++ List.replicate (decoder_size - ex.2.length) padId)[b]? with
            | none =>
              rw [hrow] at hcellW
              exact absurd hcellW (by simp)
            | some row =>
              rw [hrow] at hcellW
              have hrowD :
                  (List.range batch_size).mapM (fun batch_idx =>
                    match (bucket_data.map fun ex =>
                        ex.2 ++ List.replicate (decoder_size - ex.2.length) padId)[batch_idx]? with
                    | some r => some (r.getD (t + 1) padId)
                    | none => none) = some (bdec.getD (t + 1) []) :=
                range_mapM_getD _ decoder_size bdec hD (t + 1) ht1 []
              have hcellD :
                  (match (bucket_data.map fun ex =>
                      ex.2 ++ List.replicate (decoder_size - ex.2.length) padId)[b]? with
                   | some r => some (r.getD (t + 1) padId)
                   | none => none) = some (entry bdec (t + 1) b padId) :=
                range_mapM_getD _ batch_size (bdec.getD (t + 1) []) hrowD b hb padId
              rw [hrow] at hcellD
              have hdval : entry bdec (t + 1) b padId = row.getD (t + 1) padId :=
                (Option.some.injEq _ _ ▸ hcellD).symm
              rw [hdval]
              have hwval : entry bw t b 0 =
                  if row.getD (t + 1) padId = padId then (0 : ℚ) else 1 :=
                (Option.some.injEq _ _ ▸ hcellW).symm
              rw [hwval]
              by_cases hpad : row.getD (t + 1) padId = padId
              · simp [hlast, hpad]
              · simp [hlast, hpad]

/-- C1 witness: the spec's concrete scenario, bucket `(4, 6)`,
`PAD_ID = 0`, decoder input `[1, 7, 2]` padded to `[1, 7, 2, 0, 0, 0]`:
at step 2 (next token is padding) all three formatter operations assign
weight 0, computed by the shared rule. -/
theorem formatter_weight_rule_witness :
    (entry (format_example PAD_ID 4 6 [3, 5, 2] [1, 7, 2]).2.2 2 0 0 =
      if 2 = 6 - 1 ∨
          entry (format_example PAD_ID 4 6 [3, 5, 2] [1, 7, 2]).2.1 3 0 PAD_ID = PAD_ID
      then 0 else 1) ∧
    (entry (get_batch PAD_ID 4 6 2 (fun _ => ([3, 5, 2], [1, 7, 2]))).2.2 2 1 0 =
      if 2 = 6 - 1 ∨
          entry (get_batch PAD_ID 4 6 2 (fun _ => ([3, 5, 2], [1, 7, 2]))).2.1
            3 1 PAD_ID = PAD_ID
      then 0 else 1) ∧
    (entry ([[1, 0], [0, 0], [0, 0], [0, 0], [0, 0], [0, 0]] : List (List ℚ)) 2 1 0 =
      if 2 = 6 - 1 ∨
          entry ([[1, 1], [7, 0], [0, 0], [0, 0], [0, 0], [0, 0]] : List (List Nat))
            3 1 PAD_ID = PAD_ID
      then 0 else 1) :=
  formatter_weight_rule PAD_ID 4 6 2 [3, 5, 2] [1, 7, 2]
    (fun _ => ([3, 5, 2], [1, 7, 2]))
    [([3], [1, 7]), ([5, 2], [1])]
    [[0, 0], [0, 0], [0, 2], [3, 5]]
    [[1, 1], [7, 0], [0, 0], [0, 0], [0, 0], [0, 0]]
    [[1, 0], [0, 0], [0, 0], [0, 0], [0, 0], [0, 0]]
    2 1 (by decide) (by decide) (by decide)

/-- C5: the sampled-softmax loss path is selected if and only if
`0 < num_samples < target_vocab_size`; at the boundary values
(`num_samples = 0`, or `num_samples >= target_vocab_size`, the
right-hand conjunct failing) the full softmax cross-entropy loss is
selected instead; the selection is a pure function of the
configuration. -/
theorem softmax_loss_selection (num_samples target_vocab_size : Int) :
    (softmax_loss num_samples target_vocab_size =
        LossFunction.sampled_loss num_samples target_vocab_size ↔
      0 < num_samples ∧ num_samples < target_vocab_size) ∧
    (softmax_loss num_samples target_vocab_size =
        LossFunction.softmax_cross_entropy_with_logits ↔
      ¬(0 < num_samples ∧ num_samples < target_vocab_size)) := by
  have hiff : use_sampled_softmax num_samples target_vocab_size = true ↔
      (0 < num_samples ∧ num_samples < target_vocab_size) := by
    simp [use_sampled_softmax]
  by_cases h : 0 < num_samples ∧ num_samples < target_vocab_size
  · have hb : use_sampled_softmax num_samples target_vocab_size = true := hiff.mpr h
    constructor
    · simp [softmax_loss, hb, h]
    · simp [softmax_loss, hb, h]
  · have hb : use_sampled_softmax num_samples target_vocab_size = false := by
      cases hu : use_sampled_softmax num_samples target_vocab_size
      · rfl
      · exact absurd (hiff.mp hu) h
    constructor
    · simp [softmax_loss, hb, h]
    · simp [softmax_loss, hb, h]

/-- C3: with `bucket_id` unset (`-1`), `step`'s validation raises an
assertion failure whenever the encoder-input list length differs from
`max_source_length` or the decoder-input list length differs from
`max_target_length`; with `bucket_id` set, whenever the encoder, decoder
or weights list length differs from the bucket's bounds it raises a
length-mismatch error naming the actual and the expected length. -/
theorem step_shape_checks (max_source_length max_target_length : Nat)
    (buckets : List (Nat × Nat)) (enc dec : List (List Nat)) (w : List (List ℚ))
    (bid es ds : Nat)
    (hb : buckets[bid]? = some (es, ds)) :
    ((enc.length ≠ max_source_length ∨ dec.length ≠ max_target_length) →
      step_validate max_source_length max_target_length buckets (-1) enc dec w =
        Except.error StepError.assertionError) ∧
    ((enc.length ≠ es ∨ dec.length ≠ ds ∨ w.length ≠ ds) →
      (step_validate max_source_length max_target_length buckets (bid : Int) enc dec w =
          Except.error (StepError.encoderLengthMismatch enc.length es) ∨
       step_validate max_source_length max_target_length buckets (bid : Int) enc dec w =
          Except.error (StepError.decoderLengthMismatch dec.length ds) ∨
       step_validate max_source_length max_target_length buckets (bid : Int) enc dec w =
          Except.error (StepError.weightsLengthMismatch w.length ds))) := by
  constructor
  · intro h
    by_cases h1 : enc.length = max_source_length
    · have h2 : dec.length ≠ max_target_length := by tauto
      simp [step_validate, h1, h2]
    · simp [step_validate, h1]
  · intro h
    have hne : ¬((bid : Int) = -1) := by omega
    have hpy : pyGet buckets (bid : Int) = some (es, ds) := by
      simp [pyGet, hb]
    by_cases h1 : enc.length = es
    · by_cases h2 : dec.length = ds
      · have h3 : w.length ≠ ds := by tauto
        right; right
        simp [step_validate, hne, hpy, h1, h2, h3]
      · right; left
        simp [step_validate, hne, hpy, h1, h2]
    · left
      simp [step_validate, hne, hpy, h1]

/-- C3 witness: with maxima `(4, 6)` and bucket list `[(4, 6)]`, an
encoder-input list of length 3 (one short of `max_source_length = 4`)
makes the unbucketed validation fail its assertion, and the bucketed
validation (bucket 0) raise a length-mismatch error naming 3 and 4. -/
theorem step_shape_checks_witness :
    (step_validate 4 6 [(4, 6)] (-1) [[1], [2], [3]]
        [[1], [1], [1], [1], [1], [1]] ([] : List (List ℚ)) =
      Except.error StepError.assertionError) ∧
    (step_validate 4 6 [(4, 6)] ((0 : Nat) : Int) [[1], [2], [3]]
        [[1], [1], [1], [1], [1], [1]] ([] : List (List ℚ)) =
          Except.error (StepError.encoderLengthMismatch 3 4) ∨
     step_validate 4 6 [(4, 6)] ((0 : Nat) : Int) [[1], [2], [3]]
        [[1], [1], [1], [1], [1], [1]] ([] : List (List ℚ)) =
          Except.error (StepError.decoderLengthMismatch 6 6) ∨
     step_validate 4 6 [(4, 6)] ((0 : Nat) : Int) [[1], [2], [3]]
        [[1], [1], [1], [1], [1], [1]] ([] : List (List ℚ)) =
          Except.error (StepError.weightsLengthMismatch 0 6)) := by
  have h := step_shape_checks 4 6 [(4, 6)] [[1], [2], [3]]
    [[1], [1], [1], [1], [1], [1]] ([] : List (List ℚ)) 0 4 6 rfl
  exact ⟨h.1 (by decide), h.2 (by decide)⟩

/-- C10: in unbucketed mode the validation checks only the encoder- and
decoder-input list lengths: when those equal the configured maxima, a
weights list of any length passes; in bucketed mode a weights list whose
length differs from the bucket's decoder bound raises a descriptive
error. -/
theorem step_unbucketed_no_weights_check (max_source_length max_target_length : Nat)
    (buckets : List (Nat × Nat)) (enc dec : List (List Nat))
    (henc : enc.length = max_source_length) (hdec : dec.length = max_target_length) :
    (∀ w : List (List ℚ),
      step_validate max_source_length max_target_length buckets (-1) enc dec w =
        Except.ok (max_source_length, max_target_length)) ∧
    (∀ (bid es ds : Nat) (w : List (List ℚ)),
      buckets[bid]? = some (es, ds) → enc.length = es → dec.length = ds →
      w.length ≠ ds →
      step_validate max_source_length max_target_length buckets (bid : Int) enc dec w =
        Except.error (StepError.weightsLengthMismatch w.length ds)) := by
  constructor
  · intro w
    simp [step_validate, henc, hdec]
  · intro bid es ds w hbid h1 h2 h3
    have hne : ¬((bid : Int) = -1) := by omega
    have hpy : pyGet buckets (bid : Int) = some (es, ds) := by
      simp [pyGet, hbid]
    simp [step_validate, hne, hpy, h1, h2, h3]

/-- C10 witness: with maxima `(2, 2)`, encoder and decoder lists of
length 2 pass unbucketed validation with an empty and an over-long
weights list alike, while bucket 0 of `[(2, 2)]` rejects the empty
weights list naming 0 and 2. -/
theorem step_unbucketed_no_weights_check_witness :
    step_validate 2 2 [(2, 2)] (-1) [[1], [2]] [[3], [4]] ([] : List (List ℚ)) =
      Except.ok (2, 2) ∧
    step_validate 2 2 [(2, 2)] (-1) [[1], [2]] [[3], [4]]
      ([[1], [1], [1]] : List (List ℚ)) = Except.ok (2, 2) ∧
    step_validate 2 2 [(2, 2)] ((0 : Nat) : Int) [[1], [2]] [[3], [4]]
      ([] : List (List ℚ)) = Except.error (StepError.weightsLengthMismatch 0 2) := by
  have h := step_unbucketed_no_weights_check 2 2 [(2, 2)] [[1], [2]] [[3], [4]] rfl rfl
  exact ⟨h.1 [], h.1 [[1], [1], [1]], h.2 0 2 2 [] rfl rfl rfl (by decide)⟩

/-- C4: the sequence loss equals the sum over time of (cross-entropy at
`t` times weight at `t`), divided by the sum of the weights plus `1e-12`;
for nonnegative weights (the formatter produces only `0` and `1`) the
denominator is nonzero even when every weight is zero, so the division is
never a division by zero. -/
theorem sequence_loss_normalized (loss_function : ℚ → ℚ → ℚ)
    (logits targets weights : List ℚ)
    (hT : targets.length = logits.length) (hW : weights.length = logits.length)
    (hnn : ∀ x ∈ weights, 0 ≤ x) :
    sequence_loss loss_function logits targets weights =
      (List.zipWith (fun ce wt => ce * wt)
        (List.zipWith loss_function logits targets) weights).sum /
        (weights.sum + loss_epsilon) ∧
    weights.sum + loss_epsilon ≠ 0 := by
  have htake1 : targets.take logits.length = targets := by
    rw [← hT]; exact List.take_length targets
  have htake2 : weights.take logits.length = weights := by
    rw [← hW]; exact List.take_length weights
  constructor
  · unfold sequence_loss add_n
    rw [htake1, htake2]
    dsimp only
    rw [zip_map_eq_zipWith]
  · have h0 : 0 ≤ weights.sum := List.sum_nonneg hnn
    have he : (0 : ℚ) < loss_epsilon := by norm_num [loss_epsilon]
    intro hc
    linarith

/-- C4 witness: an all-padding example (both weights zero) gives a
denominator of exactly `1e-12`, which is nonzero, and the loss is the
weighted sum divided by it. -/
theorem sequence_loss_normalized_witness :
    sequence_loss (fun a b => a + b) [2, 3] [1, 1] ([0, 0] : List ℚ) =
      (List.zipWith (fun ce wt => ce * wt)
        (List.zipWith (fun a b => a + b) [2, 3] [1, 1]) ([0, 0] : List ℚ)).sum /
        (([0, 0] : List ℚ).sum + loss_epsilon) ∧
    ([0, 0] : List ℚ).sum + loss_epsilon ≠ 0 :=
  sequence_loss_normalized (fun a b => a + b) [2, 3] [1, 1] [0, 0] rfl rfl (by decide)

/-- C6: `get_bucket` over a bucket holding 3 stored examples (bounds
`(2, 3)`, `PAD_ID` padding).  Contrary to the claim, the returned
time-step arrays do not have one entry per stored example: with
`batch_size = 2` every array has 2 entries (the third example is silently
dropped), and with `batch_size = 4` the call raises `IndexError`
(embedded as `none`), because the re-indexing loops run over
`self.batch_size` instead of the number of stored examples. -/
theorem get_bucket_reindexes_by_batch_size :
    get_bucket PAD_ID 2 3 2 [([3], [1, 7]), ([5, 2], [1]), ([4], [1, 9])] =
      some ([[0, 2], [3, 5]], [[1, 1], [7, 0], [0, 0]],
            ([[1, 0], [0, 0], [0, 0]] : List (List ℚ))) ∧
    get_bucket PAD_ID 2 3 4 [([3], [1, 7]), ([5, 2], [1]), ([4], [1, 9])] = none := by
  constructor <;> rfl

/-- C7: a copy-enabled `format_example` call (bucket `(4, 6)`,
`PAD_ID = 0`, encoder `[3,5,2]`, decoder `[1,7,2]`, originals and copy
mask supplied).  Contrary to the claim, no batch with the padded originals
and copy mask is returned: the call raises `IndexError` (embedded as
`none`), because `original_decoder_inputs` is never populated before
being indexed. -/
theorem format_example_copy_raises :
    format_example_copy PAD_ID 4 6 [3, 5, 2] [1, 7, 2] [3, 5, 9] [1, 7, 4] [1, 0, 1] =
      none := by
  rfl

/-- C9: within one model instance the embedding-table getters and the
output-projection getter are idempotent get-or-create operations: from a
state in which the table does not yet exist and its creation flag is
unset, the n-th call (for every n, i.e. every N ≥ 1 counting from 1)
returns exactly the first call's storage identity and leaves exactly the
first call's state — later calls run in reuse mode (embeddings, via the
per-table flag) or fall back to reuse mode on the creation failure
(projection) and never re-initialize the store. -/
theorem get_or_create_idempotent (m : ModelState)
    (hsf : m.source_embedding_vars = false)
    (hsl : m.store.vars.lookup "source_embeddings/embedding" = none)
    (htf : m.target_embedding_vars = false)
    (htl : m.store.vars.lookup "target_embeddings/embedding" = none)
    (hpw : m.store.vars.lookup "output_projection/proj_w" = none)
    (hpb : m.store.vars.lookup "output_projection/proj_b" = none) :
    (∀ n, nth_call source_embeddings n m =
      Except.ok (m.store.nextId,
        { m with
          store := ⟨("source_embeddings/embedding", m.store.nextId) :: m.store.vars,
                    m.store.nextId + 1⟩,
          source_embedding_vars := true })) ∧
    (∀ n, nth_call target_embeddings n m =
      Except.ok (m.store.nextId,
        { m with
          store := ⟨("target_embeddings/embedding", m.store.nextId) :: m.store.vars,
                    m.store.nextId + 1⟩,
          target_embedding_vars := true })) ∧
    (∀ n, nth_call output_projection n m =
      Except.ok ((m.store.nextId, m.store.nextId + 1),
        { m with
          store := ⟨("output_projection/proj_b", m.store.nextId + 1) ::
                      ("output_projection/proj_w", m.store.nextId) :: m.store.vars,
                    m.store.nextId + 2⟩ })) := by
  have hqs : ("source_embeddings" ++ "/" ++ "embedding" : String) =
      "source_embeddings/embedding" := rfl
  have hqt : ("target_embeddings" ++ "/" ++ "embedding" : String) =
      "target_embeddings/embedding" := rfl
  have hqw : ("output_projection" ++ "/" ++ "proj_w" : String) =
      "output_projection/proj_w" := rfl
  have hqb : ("output_projection" ++ "/" ++ "proj_b" : String) =
      "output_projection/proj_b" := rfl
  have h1s : source_embeddings m = Except.ok (m.store.nextId,
      { m with
        store := ⟨("source_embeddings/embedding", m.store.nextId) :: m.store.vars,
                  m.store.nextId + 1⟩,
        source_embedding_vars := true }) := by
    unfold source_embeddings getVariable
    dsimp only
    rw [hsf, hqs, hsl]
    rfl
  have h1t : target_embeddings m = Except.ok (m.store.nextId,
      { m with
        store := ⟨("target_embeddings/embedding", m.store.nextId) :: m.store.vars,
                  m.store.nextId + 1⟩,
        target_embedding_vars := true }) := by
    unfold target_embeddings getVariable
    dsimp only
    rw [htf, hqt, htl]
    rfl
  have hgw : getVariable "output_projection" "proj_w" false m.store =
      Except.ok (m.store.nextId,
        ⟨("output_projection/proj_w", m.store.nextId) :: m.store.vars,
         m.store.nextId + 1⟩) := by
    unfold getVariable
    dsimp only
    rw [hqw, hpw]
    rfl
  have hgb : getVariable "output_projection" "proj_b" false
      (⟨("output_projection/proj_w", m.store.nextId) :: m.store.vars,
        m.store.nextId + 1⟩ : VarStore) =
      Except.ok (m.store.nextId + 1,
        ⟨("output_projection/proj_b", m.store.nextId + 1) ::
           ("output_projection/proj_w", m.store.nextId) :: m.store.vars,
         m.store.nextId + 2⟩) := by
    unfold getVariable
    dsimp only
    rw [hqb]
    have hstep : List.lookup "output_projection/proj_b"
        (("output_projection/proj_w", m.store.nextId) :: m.store.vars) =
        List.lookup "output_projection/proj_b" m.store.vars := rfl
    rw [hstep, hpb]
    rfl
  have h1p : output_projection m =
      Except.ok ((m.store.nextId, m.store.nextId + 1),
        { m with
          store := ⟨("output_projection/proj_b", m.store.nextId + 1) ::
                      ("output_projection/proj_w", m.store.nextId) :: m.store.vars,
                    m.store.nextId + 2⟩ }) := by
    unfold output_projection
    rw [hgw]
    dsimp only
    rw [hgb]
  exact ⟨nth_call_stable _ _ _ _ h1s rfl,
         nth_call_stable _ _ _ _ h1t rfl,
         nth_call_stable _ _ _ _ h1p rfl⟩

/-- C9 witness: from a fresh model state (empty store, all flags unset)
the third successive call of each getter returns the storage identity and
state of the first call. -/
theorem get_or_create_idempotent_witness :
    nth_call source_embeddings 2 ⟨⟨[], 0⟩, false, false, false⟩ =
      Except.ok (0, ⟨⟨[("source_embeddings/embedding", 0)], 1⟩, true, false, false⟩) ∧
    nth_call target_embeddings 2 ⟨⟨[], 0⟩, false, false, false⟩ =
      Except.ok (0, ⟨⟨[("target_embeddings/embedding", 0)], 1⟩, false, true, false⟩) ∧
    nth_call output_projection 2 ⟨⟨[], 0⟩, false, false, false⟩ =
      Except.ok ((0, 1),
        ⟨⟨[("output_projection/proj_b", 1), ("output_projection/proj_w", 0)], 2⟩,
         false, false, false⟩) := by
  have h := get_or_create_idempotent ⟨⟨[], 0⟩, false, false, false⟩ rfl rfl rfl rfl rfl rfl
  exact ⟨h.1 2, h.2.1 2, h.2.2 2⟩

/-- C8: each embedding table is declared with shape (vocabulary size ×
hidden size) under a distinct namespace per table, but — contrary to the
claim — its initializer is `tf.random_normal_initializer(-√3, √3)`, a
normal distribution with mean `-√3` and standard deviation `√3`, which is
not a symmetric-uniform initializer of half-width `√3` (no
`random_normal_initializer` equals any `random_uniform_initializer`). -/
theorem embeddings_initializer_normal_not_uniform
    (source_vocab_size target_vocab_size dim : Nat) :
    (source_embeddings_spec source_vocab_size dim (Real.sqrt 3)).shape =
        (source_vocab_size, dim) ∧
    (target_embeddings_spec target_vocab_size dim (Real.sqrt 3)).shape =
        (target_vocab_size, dim) ∧
    (source_embeddings_spec source_vocab_size dim (Real.sqrt 3)).scope ≠
        (target_embeddings_spec target_vocab_size dim (Real.sqrt 3)).scope ∧
    (source_embeddings_spec source_vocab_size dim (Real.sqrt 3)).init =
        Initializer.random_normal_initializer (-(Real.sqrt 3)) (Real.sqrt 3) ∧
    ∀ (a b c d : ℝ),
      Initializer.random_normal_initializer a b ≠
        Initializer.random_uniform_initializer c d := by
  have hscope : ("source_embeddings" : String) ≠ "target_embeddings" := by decide
  refine ⟨rfl, rfl, hscope, rfl, ?_⟩
  intro a b c d h
  exact Initializer.noConfusion h

end Seq2Tree

